import Mathlib

set_option maxRecDepth 10000

/-!
Shallow embedding of `claude_message_visualizer/visualizer.py`.

The module renders an Anthropic `Message` into an HTML document.  We embed
the renderer at the level of its dynamic structure: static CSS/markup text is
abstracted away, while every piece of data the source interpolates into the
output, every branch, every attribute access and every loop is kept.

Python attribute access on a missing attribute raises `AttributeError`; we
model optional attributes with `Option` and renderers return
`Except RenderError`.  `json.dumps` on a value is modelled by the
precomputed outcome of the external encoder (`Except String String`), since
the encoder itself is an out-of-scope collaborator.
-/

/-- Errors a render can raise: a missing attribute (Python `AttributeError`),
a `json.dumps` failure outside `_safe_json` (Python `TypeError`), or applying
`len`/iteration to a non-sized value (Python `TypeError`). -/
inductive RenderError where
  | missingField (name : String)
  | serializeError (msg : String)
  | typeError (msg : String)
deriving DecidableEq

/-- A Python object as seen by `_safe_json`: which serialization path applies
(`model_dump` present / `__dict__` present / neither), carrying the outcome
of the corresponding `json.dumps` call by the external encoder. -/
inductive PyObj where
  | pydantic (dump : Except String String)
  | dictObj (dump : Except String String)
  | plainObj (dump : Except String String)

/-- The `json.dumps` outcome relevant for a `PyObj` (the branch `_safe_json`
would take on it). -/
def PyObj.dump : PyObj → Except String String
  | .pydantic d => d
  | .dictObj d => d
  | .plainObj d => d

/-- Embeds `_safe_json`: try the branch-appropriate `json.dumps`; on failure
return the placeholder string naming the exception. -/
def safeJson : PyObj → String
  | .pydantic (.ok s) => s
  | .pydantic (.error e) => "<Unable to serialize: " ++ e ++ ">"
  | .dictObj (.ok s) => s
  | .dictObj (.error e) => "<Unable to serialize: " ++ e ++ ">"
  | .plainObj (.ok s) => s
  | .plainObj (.error e) => "<Unable to serialize: " ++ e ++ ">"

/-- A citation attached to a text block (`citation.cited_text`,
`citation.url`; both accessed behind `hasattr` guards in the source). -/
structure Citation where
  cited_text : Option String := none
  url : Option String := none

/-- An element of a block's `content` list: used both as a sub-block of a
`tool_result` (fields `type` and its serializable self) and as a search
result inside a `web_search_tool_result` (fields `type`, `url`, `title`,
`page_age`, `encrypted_content`).  All attributes optional, mirroring
dynamic attribute access. -/
structure SubObj where
  type : Option String := none
  url : Option String := none
  title : Option String := none
  page_age : Option String := none
  encrypted_content : Option String := none
  serial : PyObj := .plainObj (.ok "{}")

/-- The value of a block's `content` attribute: a plain string, a list of
objects, or some other (non-sized, non-iterable) value with its `str` form. -/
inductive ContentVal where
  | str (s : String)
  | list (items : List SubObj)
  | other (pyStr : String)

/-- The `source` attribute of image/document blocks.  The source accepts both
a dict (`source.get(key)`, returning `None` when absent) and an object
(`source.key`, raising when absent); `isDict` records which shape it is. -/
structure Source where
  isDict : Bool
  type : Option String := none
  media_type : Option String := none
  data : Option String := none
  url : Option String := none

/-- A content block of the message.  `type` is always present (the dispatcher
reads it unguarded); every other attribute is optional.  `input` holds the
outcome of `json.dumps(block.input, indent=2)` by the external encoder;
`serial` is the block as `_safe_json` sees it. -/
structure Block where
  type : String
  text : Option String := none
  citations : Option (List Citation) := none
  name : Option String := none
  id : Option String := none
  input : Option (Except String String) := none
  tool_use_id : Option String := none
  is_error : Option Bool := none
  content : Option ContentVal := none
  source : Option Source := none
  thinking : Option String := none
  serial : PyObj := .plainObj (.ok "{}")

/-- Usage statistics of a message (`usage.input_tokens`, `usage.output_tokens`). -/
structure Usage where
  input_tokens : Nat
  output_tokens : Nat

/-- The root `Message` object: `id`, `model`, `stop_reason`, `role` are read
unguarded by the header; `usage` is truthiness-checked; `content` is the
ordered block list. -/
structure Message where
  id : String
  model : String
  stop_reason : String
  role : String
  usage : Option Usage := none
  content : List Block

/-- Looks up a required attribute, raising `missingField` when absent. -/
def req {α : Type} (o : Option α) (name : String) : Except RenderError α :=
  match o with
  | some v => .ok v
  | none => .error (.missingField name)

/-- Python dict insertion semantics for the `url_to_index` map: overwrite the
value in place when the key exists, otherwise append. -/
def updateAssoc (acc : List (String × Nat)) (k : String) (v : Nat) :
    List (String × Nat) :=
  if acc.any (fun p => p.1 == k) then
    acc.map (fun p => if p.1 == k then (k, v) else p)
  else acc ++ [(k, v)]

/-- Embeds the inner loop of the map building in `_render_text_block`:
`for idx, result in enumerate(msg_block.content): if hasattr(result, 'url'):
url_to_index[result.url] = idx + 1`. -/
def urlMapItems : List SubObj → Nat → List (String × Nat) → List (String × Nat)
  | [], _, acc => acc
  | it :: rest, i, acc =>
    match it.url with
    | some u => urlMapItems rest (i + 1) (updateAssoc acc u (i + 1))
    | none => urlMapItems rest (i + 1) acc

/-- Embeds the outer loop of the map building: for every block of the message
whose `type` is `web_search_tool_result`, enumerate its `content`.  Accessing
a missing `content` raises; enumerating a string yields characters (which
have no `url`); enumerating another value raises `TypeError`. -/
def urlMapBlocks : List Block → List (String × Nat) →
    Except RenderError (List (String × Nat))
  | [], acc => .ok acc
  | b :: rest, acc =>
    if b.type = "web_search_tool_result" then
      match b.content with
      | none => .error (.missingField "content")
      | some (.str _) => urlMapBlocks rest acc
      | some (.list items) => urlMapBlocks rest (urlMapItems items 0 acc)
      | some (.other _) => .error (.typeError "content is not iterable")
    else urlMapBlocks rest acc

/-- Embeds the `url_to_index` construction of `_render_text_block`: empty when
`message` is `None`, otherwise built from all web-search blocks. -/
def buildUrlMap : Option Message → Except RenderError (List (String × Nat))
  | none => .ok []
  | some m => urlMapBlocks m.content []

/-- Embeds `citation.cited_text[:100] + "..." if len(...) > 100 else ...`. -/
def truncateCited (ct : String) : String :=
  if ct.length > 100 then ct.take 100 ++ "..." else ct

/-- The citation number computed in `_render_text_block`: default to the
1-based enumeration position, overridden by the `url_to_index` entry when the
citation has a `url` that is a key of the map. -/
def citationNumber (umap : List (String × Nat)) (i : Nat) (c : Citation) : Nat :=
  match c.url with
  | some u =>
    match umap.lookup u with
    | some n => n
    | none => i + 1
  | none => i + 1

/-- One rendered citation box: the bracketed number and the (possibly
truncated) quoted excerpt. -/
structure CitationEntry where
  number : Nat
  citedText : String

/-- Embeds the citation loop of `_render_text_block`: enumerate the block's
citations; those with a `cited_text` attribute each produce one entry. -/
def citationEntries : List Citation → Nat → List (String × Nat) →
    List CitationEntry
  | [], _, _ => []
  | c :: rest, i, umap =>
    match c.cited_text with
    | some ct =>
      { number := citationNumber umap i c, citedText := truncateCited ct } ::
        citationEntries rest (i + 1) umap
    | none => citationEntries rest (i + 1) umap

/-- Models Python `text.strip() == ""`: every character is whitespace. -/
def stripIsEmpty (s : String) : Bool :=
  s.data.all (fun c => c.isWhitespace)

/-- Models `not text or text.strip() == ""` from `_render_text_block`
(a Python string is falsy exactly when it has no characters). -/
def textIsEmpty (s : String) : Bool :=
  s.data.isEmpty || stripIsEmpty s

/-- The four mutually exclusive renderings `_render_text_block` can produce,
in the source's branch order: citations present; empty placeholder; long-form
collapsed section labeled with the character count; plain preformatted text. -/
inductive TextRendering where
  | withCitations (text : String) (entries : List CitationEntry)
  | empty
  | longForm (charCount : Nat) (text : String)
  | plain (text : String)

/-- Embeds `_render_text_block(block, message=None)`. -/
def renderTextBlock (block : Block) (message : Option Message) :
    Except RenderError TextRendering :=
  match block.text with
  | none => .error (.missingField "text")
  | some text =>
    let is_empty := textIsEmpty text
    let has_citations :=
      match block.citations with
      | some cs => !cs.isEmpty
      | none => false
    if has_citations then
      match buildUrlMap message with
      | .error e => .error e
      | .ok umap =>
        .ok (.withCitations text
          (citationEntries (block.citations.getD []) 0 umap))
    else if is_empty then .ok .empty
    else if text.length > 1000 then .ok (.longForm text.length text)
    else .ok (.plain text)

/-- The body of a rendered `tool_result`: verbatim string content, a list of
sub-blocks each rendered as an optional tag line plus its `_safe_json` form,
or the `str()` form of any other content value. -/
inductive ToolResultBody where
  | str (s : String)
  | list (parts : List (Option String × String))
  | other (s : String)

/-- One rendered nested search result (`_render_individual_search_result`):
the 1-based position badge, title, URL, page age, and the reported length of
the encrypted content. -/
structure SearchEntryFragment where
  position : Nat
  title : String
  url : String
  page_age : String
  encryptedLen : Nat

/-- Rendered image body (`_render_image_block` branches on the source type). -/
inductive ImageRendering where
  | base64 (media_type : Option String) (dataSize : Nat) (data : Option String)
  | urlSrc (url : Option String)
  | otherSrc (source_type : Option String)

/-- Rendered document body (`_render_document_block`). -/
inductive DocRendering where
  | base64 (media_type : Option String) (dataSize : Nat)
  | otherSrc (source_type : Option String)

/-- The variant-specific part of one rendered block, one constructor per
renderer of the dispatch in `_render_block`. -/
inductive BlockBody where
  | text (r : TextRendering)
  | toolUse (name : String) (id : String) (inputDump : String)
  | toolResult (tool_use_id : String) (errorBadge : Bool) (body : ToolResultBody)
  | serverToolUse (name : String) (id : String) (inputDump : String)
  | webSearch (count : Nat) (entries : List SearchEntryFragment)
  | image (r : ImageRendering)
  | thinking (charCount : Nat) (content : String)
  | document (r : DocRendering)
  | generic (json : String)

/-- Embeds `_get_block_tooltip_text`. -/
def getBlockTooltipText (block_type : String) : Option String :=
  if block_type = "text" then
    some "The main text content in Claude's response."
  else if block_type = "tool_use" then
    some "Claude is requesting your application to execute a tool."
  else if block_type = "tool_result" then
    some "The result returned from executing a tool that Claude requested."
  else if block_type = "server_tool_use" then
    some "Server tools execute on server infrastructure."
  else if block_type = "web_search_tool_result" then
    some "Results from a web search performed by the server."
  else if block_type = "image" then
    some "Image content included in the message."
  else if block_type = "thinking" then
    some "Extended thinking content."
  else if block_type = "document" then
    some "Document content attached to the message."
  else none

/-- Embeds `_get_block_icon`. -/
def getBlockIcon (block_type : String) : String :=
  if block_type = "text" then "§"
  else if block_type = "tool_use" then "⚙"
  else if block_type = "tool_result" then "✓"
  else if block_type = "server_tool_use" then "◆"
  else if block_type = "web_search_tool_result" then "◇"
  else if block_type = "web_search_result" then "·"
  else if block_type = "image" then "◉"
  else if block_type = "thinking" then "∴"
  else if block_type = "document" then "▭"
  else "•"

/-- Embeds `_get_block_color`. -/
def getBlockColor (block_type : String) : String :=
  if block_type = "text" then "#000"
  else if block_type = "tool_use" then "#000"
  else if block_type = "tool_result" then "#000"
  else if block_type = "server_tool_use" then "#000"
  else if block_type = "web_search_tool_result" then "#000"
  else if block_type = "web_search_result" then "#666"
  else if block_type = "image" then "#000"
  else if block_type = "thinking" then "#666"
  else if block_type = "document" then "#000"
  else "#666"

/-- Models `block_type.replace('_', ' ')` (single-character replacement). -/
def labelOfType (t : String) : String :=
  String.mk (t.data.map (fun c => if c = '_' then ' ' else c))

/-- Embeds `_render_tool_use_block`: reads `name`, `id`, then
`json.dumps(block.input, indent=2)`; a dumps failure propagates (no guard). -/
def renderToolUseBlock (block : Block) : Except RenderError BlockBody :=
  match req block.name "name" with
  | .error e => .error e
  | .ok name =>
    match req block.id "id" with
    | .error e => .error e
    | .ok id =>
      match block.input with
      | none => .error (.missingField "input")
      | some (.error e) => .error (.serializeError e)
      | some (.ok s) => .ok (.toolUse name id s)

/-- Embeds `_render_server_tool_use_block` (same shape as tool_use). -/
def renderServerToolUseBlock (block : Block) : Except RenderError BlockBody :=
  match req block.name "name" with
  | .error e => .error e
  | .ok name =>
    match req block.id "id" with
    | .error e => .error e
    | .ok id =>
      match block.input with
      | none => .error (.missingField "input")
      | some (.error e) => .error (.serializeError e)
      | some (.ok s) => .ok (.serverToolUse name id s)

/-- Embeds `_render_tool_result_block`: the error badge shows when
`hasattr(block, 'is_error') and block.is_error`; content is a string, a list
of sub-blocks (tag line when `type` present, then `_safe_json`), or `str()`. -/
def renderToolResultBlock (block : Block) : Except RenderError BlockBody :=
  let errBadge : Bool := block.is_error = some true
  match req block.tool_use_id "tool_use_id" with
  | .error e => .error e
  | .ok tuid =>
    match block.content with
    | none => .error (.missingField "content")
    | some (.str s) => .ok (.toolResult tuid errBadge (.str s))
    | some (.list items) =>
      .ok (.toolResult tuid errBadge
        (.list (items.map (fun it => (it.type, safeJson it.serial)))))
    | some (.other s) => .ok (.toolResult tuid errBadge (.other s))

/-- Embeds `_render_individual_search_result`: reads `title`, `url`,
`page_age`, `encrypted_content` (each raising when absent) and badges with
the 1-based position. -/
def renderIndividualSearchResult (result : SubObj) (index : Nat) :
    Except RenderError SearchEntryFragment :=
  match req result.title "title" with
  | .error e => .error e
  | .ok title =>
    match req result.url "url" with
    | .error e => .error e
    | .ok url =>
      match req result.page_age "page_age" with
      | .error e => .error e
      | .ok pa =>
        match req result.encrypted_content "encrypted_content" with
        | .error e => .error e
        | .ok enc =>
          .ok { position := index + 1, title := title, url := url,
                page_age := pa, encryptedLen := enc.length }

/-- Embeds the result loop of `_render_web_search_result_block`: only items
whose `type` attribute equals `web_search_result` are rendered, keeping their
enumeration index. -/
def renderSearchEntries : List SubObj → Nat →
    Except RenderError (List SearchEntryFragment)
  | [], _ => .ok []
  | it :: rest, i =>
    if it.type = some "web_search_result" then
      match renderIndividualSearchResult it i with
      | .error e => .error e
      | .ok e =>
        match renderSearchEntries rest (i + 1) with
        | .error e => .error e
        | .ok es => .ok (e :: es)
    else renderSearchEntries rest (i + 1)

/-- Embeds `_render_web_search_result_block`: the displayed count is
`len(block.content)`; iterating a string yields characters (no `type`
attribute, so no entries); `len` of another value raises. -/
def renderWebSearchResultBlock (block : Block) (depth : Nat) :
    Except RenderError BlockBody :=
  match block.content with
  | none => .error (.missingField "content")
  | some (.str s) => .ok (.webSearch s.length [])
  | some (.list items) =>
    match renderSearchEntries items 0 with
    | .error e => .error e
    | .ok es => .ok (.webSearch items.length es)
  | some (.other _) => .error (.typeError "content has no len")

/-- Models the dual source access: `source.get(key)` on dicts (total,
`None` when absent) versus `source.key` on objects (raises when absent). -/
def srcField (s : Source) (f : Source → Option String) (name : String) :
    Except RenderError (Option String) :=
  if s.isDict then .ok (f s)
  else
    match f s with
    | some v => .ok (some v)
    | none => .error (.missingField name)

/-- Embeds `_render_image_block`: branch on the source type; for base64 the
reported size is `len(data) if data else 0`. -/
def renderImageBlock (block : Block) : Except RenderError BlockBody :=
  match req block.source "source" with
  | .error e => .error e
  | .ok source =>
    match srcField source Source.type "type" with
    | .error e => .error e
    | .ok source_type =>
      if source_type = some "base64" then
        match srcField source Source.media_type "media_type" with
        | .error e => .error e
        | .ok mt =>
          match srcField source Source.data "data" with
          | .error e => .error e
          | .ok data =>
            .ok (.image (.base64 mt (data.getD "").length data))
      else if source_type = some "url" then
        match srcField source Source.url "url" with
        | .error e => .error e
        | .ok url => .ok (.image (.urlSrc url))
      else .ok (.image (.otherSrc source_type))

/-- Embeds `_render_thinking_block`: collapsed section labeled with the
character count of the thinking text. -/
def renderThinkingBlock (block : Block) : Except RenderError BlockBody :=
  match req block.thinking "thinking" with
  | .error e => .error e
  | .ok t => .ok (.thinking t.length t)

/-- Embeds `_render_document_block`. -/
def renderDocumentBlock (block : Block) : Except RenderError BlockBody :=
  match req block.source "source" with
  | .error e => .error e
  | .ok source =>
    match srcField source Source.type "type" with
    | .error e => .error e
    | .ok source_type =>
      if source_type = some "base64" then
        match srcField source Source.media_type "media_type" with
        | .error e => .error e
        | .ok mt =>
          match srcField source Source.data "data" with
          | .error e => .error e
          | .ok data =>
            .ok (.document (.base64 mt (data.getD "").length))
      else .ok (.document (.otherSrc source_type))

/-- The type dispatch of `_render_block`: unknown types fall back to the
generic `_safe_json` rendering. -/
def renderBlockBody (block : Block) (message : Option Message) (depth : Nat) :
    Except RenderError BlockBody :=
  if block.type = "text" then
    match renderTextBlock block message with
    | .error e => .error e
    | .ok r => .ok (.text r)
  else if block.type = "tool_use" then renderToolUseBlock block
  else if block.type = "tool_result" then renderToolResultBlock block
  else if block.type = "server_tool_use" then renderServerToolUseBlock block
  else if block.type = "web_search_tool_result" then
    renderWebSearchResultBlock block depth
  else if block.type = "image" then renderImageBlock block
  else if block.type = "thinking" then renderThinkingBlock block
  else if block.type = "document" then renderDocumentBlock block
  else .ok (.generic (safeJson block.serial))

/-- The uniform block shell produced by `_render_block`: icon, color,
optional tooltip, the humanized type label, the `Block {index}` badge, and
the variant body. -/
structure BlockFragment where
  icon : String
  color : String
  tooltip : Option String
  label : String
  indexBadge : String
  body : BlockBody

/-- Embeds `_render_block(block, index, message=None, depth=0)`. -/
def renderBlock (block : Block) (index : Nat) (message : Option Message)
    (depth : Nat) : Except RenderError BlockFragment :=
  match renderBlockBody block message depth with
  | .error e => .error e
  | .ok body =>
    .ok { icon := getBlockIcon block.type,
          color := getBlockColor block.type,
          tooltip := getBlockTooltipText block.type,
          label := labelOfType block.type,
          indexBadge := "Block " ++ toString index,
          body := body }

/-- The header section of `_build_html`: id, model, stop reason, role, and
the usage statistics when present. -/
structure Header where
  id : String
  model : String
  stop_reason : String
  role : String
  usage : Option (Nat × Nat)

/-- Embeds the header construction of `_build_html`. -/
def buildHeader (m : Message) : Header :=
  { id := m.id, model := m.model, stop_reason := m.stop_reason,
    role := m.role,
    usage := m.usage.map (fun u => (u.input_tokens, u.output_tokens)) }

/-- The complete document `_build_html` returns: the header followed by the
per-block fragments in input order. -/
structure Document where
  header : Header
  blocks : List BlockFragment

/-- Embeds the content loop of `_build_html`:
`for idx, block in enumerate(message.content): _render_block(block, idx, message)`. -/
def renderBlocks : List Block → Nat → Message →
    Except RenderError (List BlockFragment)
  | [], _, _ => .ok []
  | b :: rest, i, m =>
    match renderBlock b i (some m) 0 with
    | .error e => .error e
    | .ok f =>
      match renderBlocks rest (i + 1) m with
      | .error e => .error e
      | .ok fs => .ok (f :: fs)

/-- Embeds `_build_html`. -/
def buildHtml (m : Message) : Except RenderError Document :=
  match renderBlocks m.content 0 m with
  | .error e => .error e
  | .ok fs => .ok { header := buildHeader m, blocks := fs }

/-- Embeds `visualize_message`: the list of documents emitted to the display
sink.  A successful build emits exactly the one document; a raised error
propagates before `display` is reached, so nothing is emitted. -/
def displayedDocuments (m : Message) : List Document :=
  match buildHtml m with
  | .ok d => [d]
  | .error _ => []

lemma renderBlock_ok_badge {b : Block} {i : Nat} {msg : Option Message}
    {d : Nat} {f : BlockFragment} (h : renderBlock b i msg d = .ok f) :
    f.indexBadge = "Block " ++ toString i := by
  unfold renderBlock at h
  cases hb : renderBlockBody b msg d with
  | error e => rw [hb] at h; exact absurd h (by simp)
  | ok body =>
    rw [hb] at h
    simp only [Except.ok.injEq] at h
    rw [← h]

lemma renderBlocks_ok {m : Message} :
    ∀ (l : List Block) (k : Nat) (fs : List BlockFragment),
      renderBlocks l k m = .ok fs →
      fs.length = l.length ∧
        ∀ j b, l.get? j = some b →
          ∃ f, fs.get? j = some f ∧ renderBlock b (k + j) (some m) 0 = .ok f := by
  intro l
  induction l with
  | nil =>
    intro k fs h
    unfold renderBlocks at h
    simp only [Except.ok.injEq] at h
    subst h
    exact ⟨rfl, by intro j b hb; simp at hb⟩
  | cons b0 rest ih =>
    intro k fs h
    unfold renderBlocks at h
    cases h1 : renderBlock b0 k (some m) 0 with
    | error e => rw [h1] at h; exact absurd h (by simp)
    | ok f0 =>
      rw [h1] at h
      cases h2 : renderBlocks rest (k + 1) m with
      | error e => rw [h2] at h; exact absurd h (by simp)
      | ok fs' =>
        rw [h2] at h
        simp only [Except.ok.injEq] at h
        subst h
        obtain ⟨hlen, hget⟩ := ih (k + 1) fs' h2
        refine ⟨by simp [hlen], ?_⟩
        intro j b hb
        cases j with
        | zero =>
          simp only [List.get?_cons_zero, Option.some.injEq] at hb
          subst hb
          exact ⟨f0, by simp, by simpa using h1⟩
        | succ j' =>
          simp only [List.get?_cons_succ] at hb
          obtain ⟨f, hf, hr⟩ := hget j' b hb
          refine ⟨f, by simpa using hf, ?_⟩
          have : k + 1 + j' = k + (j' + 1) := by omega
          rw [← this]
          exact hr

/-- C1: for every `Message` whose render succeeds, the document holds, after
the header, exactly one fragment per content block, in input order, and the
fragment at position `j` is the rendering of the block at position `j` and
carries the zero-based index badge `Block j`. -/
theorem spec_c1_dispatch (m : Message) (d : Document)
    (h : buildHtml m = .ok d) :
    d.blocks.length = m.content.length ∧
      ∀ j b, m.content.get? j = some b →
        ∃ f, d.blocks.get? j = some f ∧ renderBlock b j (some m) 0 = .ok f ∧
          f.indexBadge = "Block " ++ toString j := by
  unfold buildHtml at h
  cases h0 : renderBlocks m.content 0 m with
  | error e => rw [h0] at h; exact absurd h (by simp)
  | ok fs =>
    rw [h0] at h
    simp only [Except.ok.injEq] at h
    subst h
    obtain ⟨hlen, hget⟩ := renderBlocks_ok m.content 0 fs h0
    refine ⟨hlen, ?_⟩
    intro j b hb
    obtain ⟨f, hf, hr⟩ := hget j b hb
    rw [Nat.zero_add] at hr
    exact ⟨f, hf, hr, renderBlock_ok_badge hr⟩

def c1Msg : Message :=
  { id := "msg_1", model := "claude-test", stop_reason := "end_turn",
    role := "assistant", usage := none,
    content := [{ type := "text", text := some "hi" }] }

def c1Doc : Document :=
  { header := { id := "msg_1", model := "claude-test",
                stop_reason := "end_turn", role := "assistant",
                usage := none },
    blocks := [{ icon := "§", color := "#000",
                 tooltip := some "The main text content in Claude's response.",
                 label := "text", indexBadge := "Block 0",
                 body := .text (.plain "hi") }] }

/-- Witness for C1 at a concrete one-block message. -/
theorem spec_c1_dispatch_witness :
    c1Doc.blocks.length = c1Msg.content.length :=
  (spec_c1_dispatch c1Msg c1Doc rfl).1

lemma renderBlocks_error {m : Message} :
    ∀ (l : List Block) (k j : Nat) (b : Block) (e : RenderError),
      l.get? j = some b → renderBlock b (k + j) (some m) 0 = .error e →
      ∃ e', renderBlocks l k m = .error e' := by
  intro l
  induction l with
  | nil => intro k j b e hb _; simp at hb
  | cons b0 rest ih =>
    intro k j b e hb he
    cases j with
    | zero =>
      simp only [List.get?_cons_zero, Option.some.injEq] at hb
      subst hb
      refine ⟨e, ?_⟩
      unfold renderBlocks
      rw [show k + 0 = k from rfl] at he
      rw [he]
    | succ j' =>
      simp only [List.get?_cons_succ] at hb
      cases h1 : renderBlock b0 k (some m) 0 with
      | error e0 => exact ⟨e0, by unfold renderBlocks; rw [h1]⟩
      | ok f0 =>
        have he' : renderBlock b (k + 1 + j') (some m) 0 = .error e := by
          have : k + 1 + j' = k + (j' + 1) := by omega
          rw [this]; exact he
        obtain ⟨e', h2⟩ := ih (k + 1) j' b e hb he'
        exact ⟨e', by unfold renderBlocks; rw [h1, h2]⟩

/-- C7: when a block's renderer raises a missing-field error, the whole
render call aborts with an error and nothing is emitted to the display
sink — no partial output for the preceding blocks. -/
theorem spec_c7_failfast (m : Message) (j : Nat) (b : Block) (fname : String)
    (hb : m.content.get? j = some b)
    (he : renderBlock b j (some m) 0 = .error (.missingField fname)) :
    (∃ e, buildHtml m = .error e) ∧ displayedDocuments m = [] := by
  have he0 : renderBlock b (0 + j) (some m) 0 = .error (.missingField fname) := by
    rw [Nat.zero_add]; exact he
  obtain ⟨e', hrb⟩ :=
    renderBlocks_error m.content 0 j b (.missingField fname) hb he0
  have hbuild : buildHtml m = .error e' := by
    unfold buildHtml; rw [hrb]
  exact ⟨⟨e', hbuild⟩, by unfold displayedDocuments; rw [hbuild]⟩

def c7Msg : Message :=
  { id := "msg_7", model := "claude-test", stop_reason := "end_turn",
    role := "assistant", usage := none,
    content := [{ type := "text", text := some "ok" },
                { type := "text" }] }

/-- Witness for C7: the second block lacks `text`, so the render of the
two-block message emits nothing even though the first block renders fine. -/
theorem spec_c7_failfast_witness : displayedDocuments c7Msg = [] :=
  (spec_c7_failfast c7Msg 1 { type := "text" } "text" rfl rfl).2

lemma renderTextBlock_withCitations_inv {b : Block} {msg : Option Message}
    {t : String} {es : List CitationEntry}
    (h : renderTextBlock b msg = .ok (.withCitations t es)) :
    ∃ cs umap, b.text = some t ∧ b.citations = some cs ∧
      buildUrlMap msg = .ok umap ∧ es = citationEntries cs 0 umap := by
  unfold renderTextBlock at h
  cases ht : b.text with
  | none => rw [ht] at h; exact absurd h (by simp)
  | some text =>
    rw [ht] at h
    dsimp only at h
    split at h
    · rename_i hcond
      cases hc : b.citations with
      | none => rw [hc] at hcond; simp at hcond
      | some cs =>
        cases hmap : buildUrlMap msg with
        | error e => rw [hmap] at h; exact absurd h (by simp)
        | ok umap =>
          rw [hmap, hc] at h
          simp only [Option.getD_some, Except.ok.injEq,
            TextRendering.withCitations.injEq] at h
          exact ⟨cs, umap, by rw [h.1], rfl, rfl, h.2.symm⟩
    · split at h
      · exact absurd h (by simp)
      · split at h <;> exact absurd h (by simp)

/-- The citation labeling as the specification words it: an entry per
citation carrying a quoted excerpt, numbered by the URL-to-index map's entry
for the citation's URL when that URL is present in the map, else by the
citation's 1-based position within this segment's citation list. -/
def citationEntriesSpec (cs : List Citation) (umap : List (String × Nat)) :
    List CitationEntry :=
  cs.enum.filterMap (fun p =>
    match p.2.cited_text with
    | some ct =>
      some { number :=
               match p.2.url with
               | some u =>
                 match umap.lookup u with
                 | some n => n
                 | none => p.1 + 1
               | none => p.1 + 1,
             citedText := truncateCited ct }
    | none => none)

lemma citationEntries_eq_enumFrom (umap : List (String × Nat)) :
    ∀ (cs : List Citation) (i : Nat),
      citationEntries cs i umap =
        (cs.enumFrom i).filterMap (fun p =>
          match p.2.cited_text with
          | some ct =>
            some { number :=
                     match p.2.url with
                     | some u =>
                       match umap.lookup u with
                       | some n => n
                       | none => p.1 + 1
                     | none => p.1 + 1,
                   citedText := truncateCited ct }
          | none => none) := by
  intro cs
  induction cs with
  | nil => intro i; rfl
  | cons c rest ih =>
    intro i
    unfold citationEntries
    cases hct : c.cited_text with
    | some ct =>
      simp only [List.enumFrom_cons, List.filterMap_cons, hct, ih (i + 1)]
      rfl
    | none =>
      simp only [List.enumFrom_cons, List.filterMap_cons, hct, ih (i + 1)]

/-- C2: when a text block with citations renders, each cited-text-bearing
citation is labeled by the URL-to-index map entry for its URL when present
in the map, and by its 1-based position in the segment's citation list
otherwise — the entry list equals the specification's description of it. -/
theorem spec_c2_citation_numbering (b : Block) (m : Message) (t : String)
    (es : List CitationEntry) (cs : List Citation)
    (umap : List (String × Nat))
    (hr : renderTextBlock b (some m) = .ok (.withCitations t es))
    (hc : b.citations = some cs)
    (hm : buildUrlMap (some m) = .ok umap) :
    es = citationEntriesSpec cs umap := by
  obtain ⟨cs', umap', _, hc', hm', hes⟩ := renderTextBlock_withCitations_inv hr
  rw [hc] at hc'
  rw [hm] at hm'
  simp only [Option.some.injEq] at hc'
  simp only [Except.ok.injEq] at hm'
  subst hc'
  subst hm'
  rw [hes, citationEntriesSpec, List.enum, citationEntries_eq_enumFrom]

def c2SearchBlock : Block :=
  { type := "web_search_tool_result",
    content := some (.list
      [{ type := some "web_search_result", url := some "u1",
         title := some "t1", page_age := some "d1",
         encrypted_content := some "abc" },
       { type := some "web_search_result", url := some "u2",
         title := some "t2", page_age := some "d2",
         encrypted_content := some "de" },
       { type := some "web_search_result", url := some "u3",
         title := some "t3", page_age := some "d3",
         encrypted_content := some "f" }]) }

def c2TextBlock : Block :=
  { type := "text", text := some "T",
    citations := some [{ cited_text := some "q2", url := some "u2" },
                       { cited_text := some "qx", url := some "ux" }] }

def c2Msg : Message :=
  { id := "msg_2", model := "claude-test", stop_reason := "end_turn",
    role := "assistant", usage := none,
    content := [c2SearchBlock, c2TextBlock] }

/-- Witness for C2: a citation of `u2` is labeled `2` (the search-result
index), while a citation of an unknown URL falls back to its list position. -/
theorem spec_c2_citation_numbering_witness :
    [{ number := 2, citedText := "q2" },
     { number := 2, citedText := "qx" }] =
      citationEntriesSpec
        [{ cited_text := some "q2", url := some "u2" },
         { cited_text := some "qx", url := some "ux" }]
        [("u1", 1), ("u2", 2), ("u3", 3)] :=
  spec_c2_citation_numbering c2TextBlock c2Msg "T"
    [{ number := 2, citedText := "q2" }, { number := 2, citedText := "qx" }]
    [{ cited_text := some "q2", url := some "u2" },
     { cited_text := some "qx", url := some "ux" }]
    [("u1", 1), ("u2", 2), ("u3", 3)] rfl rfl rfl

/-- The number of cited-text-bearing citations strictly before position `j`,
i.e. the position of the entry a citation at `j` produces. -/
def countCitedBefore (cs : List Citation) (j : Nat) : Nat :=
  (cs.take j).countP (fun c => c.cited_text.isSome)

lemma citationEntries_length (umap : List (String × Nat)) :
    ∀ (cs : List Citation) (i : Nat),
      (citationEntries cs i umap).length =
        cs.countP (fun c => c.cited_text.isSome) := by
  intro cs
  induction cs with
  | nil => intro i; rfl
  | cons c rest ih =>
    intro i
    unfold citationEntries
    cases hct : c.cited_text with
    | some ct => simp [List.countP_cons, hct, ih (i + 1)]
    | none => simp [List.countP_cons, hct, ih (i + 1)]

lemma citationEntries_get (umap : List (String × Nat)) :
    ∀ (cs : List Citation) (i0 j : Nat) (c : Citation) (ct : String),
      cs.get? j = some c → c.cited_text = some ct →
      (citationEntries cs i0 umap).get? (countCitedBefore cs j) =
        some { number := citationNumber umap (i0 + j) c,
               citedText := truncateCited ct } := by
  intro cs
  induction cs with
  | nil => intro i0 j c ct hj _; simp at hj
  | cons c0 rest ih =>
    intro i0 j c ct hj hct
    cases j with
    | zero =>
      simp only [List.get?_cons_zero, Option.some.injEq] at hj
      subst hj
      unfold countCitedBefore citationEntries
      rw [hct]
      simp
    | succ j' =>
      simp only [List.get?_cons_succ] at hj
      have key := ih (i0 + 1) j' c ct hj hct
      unfold countCitedBefore at key ⊢
      unfold citationEntries
      cases hc0 : c0.cited_text with
      | some ct0 =>
        simp only [List.take_succ_cons, List.countP_cons, hc0,
          Option.isSome_some, if_true]
        have harith : i0 + 1 + j' = i0 + (j' + 1) := by omega
        rw [harith] at key
        simpa using key
      | none =>
        simp only [List.take_succ_cons, List.countP_cons, hc0,
          Option.isSome_none, if_false]
        have harith : i0 + 1 + j' = i0 + (j' + 1) := by omega
        rw [harith] at key
        simpa using key

/-- C3: citation numbering is stable across the whole render — two citations
in (possibly different) text blocks of the same message whose URLs coincide
and appear in the URL-to-index map built from the message's web-search
results both get that map entry as their label. -/
theorem spec_c3_numbering_stable (m : Message) (b1 b2 : Block)
    (t1 t2 : String) (es1 es2 : List CitationEntry)
    (cs1 cs2 : List Citation) (j1 j2 : Nat) (c1 c2 : Citation)
    (u : String) (ct1 ct2 : String) (umap : List (String × Nat)) (n : Nat)
    (hr1 : renderTextBlock b1 (some m) = .ok (.withCitations t1 es1))
    (hr2 : renderTextBlock b2 (some m) = .ok (.withCitations t2 es2))
    (hc1 : b1.citations = some cs1) (hc2 : b2.citations = some cs2)
    (hj1 : cs1.get? j1 = some c1) (hj2 : cs2.get? j2 = some c2)
    (hct1 : c1.cited_text = some ct1) (hct2 : c2.cited_text = some ct2)
    (hu1 : c1.url = some u) (hu2 : c2.url = some u)
    (hm : buildUrlMap (some m) = .ok umap)
    (hn : umap.lookup u = some n) :
    es1.get? (countCitedBefore cs1 j1) =
        some { number := n, citedText := truncateCited ct1 } ∧
      es2.get? (countCitedBefore cs2 j2) =
        some { number := n, citedText := truncateCited ct2 } := by
  obtain ⟨cs1', umap1, _, hc1', hm1, hes1⟩ := renderTextBlock_withCitations_inv hr1
  obtain ⟨cs2', umap2, _, hc2', hm2, hes2⟩ := renderTextBlock_withCitations_inv hr2
  rw [hc1] at hc1'; rw [hc2] at hc2'
  rw [hm] at hm1; rw [hm] at hm2
  simp only [Option.some.injEq] at hc1' hc2'
  simp only [Except.ok.injEq] at hm1 hm2
  subst hc1'; subst hc2'; subst hm1; subst hm2
  have h1 := citationEntries_get umap cs1 0 j1 c1 ct1 hj1 hct1
  have h2 := citationEntries_get umap cs2 0 j2 c2 ct2 hj2 hct2
  have hnum1 : citationNumber umap (0 + j1) c1 = n := by
    simp [citationNumber, hu1, hn]
  have hnum2 : citationNumber umap (0 + j2) c2 = n := by
    simp [citationNumber, hu2, hn]
  rw [hnum1] at h1
  rw [hnum2] at h2
  exact ⟨by rw [hes1]; exact h1, by rw [hes2]; exact h2⟩

def c3TextBlock1 : Block :=
  { type := "text", text := some "A",
    citations := some [{ cited_text := some "qa", url := some "u2" }] }

def c3TextBlock2 : Block :=
  { type := "text", text := some "B",
    citations := some [{ cited_text := some "x", url := none },
                       { cited_text := some "qb", url := some "u2" }] }

def c3Msg : Message :=
  { id := "msg_3", model := "claude-test", stop_reason := "end_turn",
    role := "assistant", usage := none,
    content := [c2SearchBlock, c3TextBlock1, c3TextBlock2] }

/-- Witness for C3: two citations of `u2` sitting in different text blocks at
different list positions are both labeled `2`. -/
theorem spec_c3_numbering_stable_witness :
    ([{ number := 2, citedText := "qa" }] : List CitationEntry).get?
        (countCitedBefore [{ cited_text := some "qa", url := some "u2" }] 0) =
      some { number := 2, citedText := truncateCited "qa" } ∧
    ([{ number := 1, citedText := "x" },
      { number := 2, citedText := "qb" }] : List CitationEntry).get?
        (countCitedBefore [{ cited_text := some "x", url := none },
                           { cited_text := some "qb", url := some "u2" }] 1) =
      some { number := 2, citedText := truncateCited "qb" } :=
  spec_c3_numbering_stable c3Msg c3TextBlock1 c3TextBlock2 "A" "B"
    [{ number := 2, citedText := "qa" }]
    [{ number := 1, citedText := "x" }, { number := 2, citedText := "qb" }]
    [{ cited_text := some "qa", url := some "u2" }]
    [{ cited_text := some "x", url := none },
     { cited_text := some "qb", url := some "u2" }]
    0 1 { cited_text := some "qa", url := some "u2" }
    { cited_text := some "qb", url := some "u2" } "u2" "qa" "qb"
    [("u1", 1), ("u2", 2), ("u3", 3)] 2
    rfl rfl rfl rfl rfl rfl rfl rfl rfl rfl rfl rfl

/-- C6: the rendered quoted excerpt of a cited-text-bearing citation is the
first 100 characters followed by an ellipsis when the cited text is longer
than 100 characters, and the cited text verbatim otherwise. -/
theorem spec_c6_excerpt_truncation (b : Block) (msg : Option Message)
    (t : String) (es : List CitationEntry) (cs : List Citation) (j : Nat)
    (c : Citation) (ct : String)
    (hr : renderTextBlock b msg = .ok (.withCitations t es))
    (hc : b.citations = some cs)
    (hj : cs.get? j = some c)
    (hct : c.cited_text = some ct) :
    ∃ e, es.get? (countCitedBefore cs j) = some e ∧
      e.citedText = (if ct.length > 100 then ct.take 100 ++ "..." else ct) := by
  obtain ⟨cs', umap, _, hc', hm, hes⟩ := renderTextBlock_withCitations_inv hr
  rw [hc] at hc'
  simp only [Option.some.injEq] at hc'
  subst hc'
  refine ⟨{ number := citationNumber umap (0 + j) c,
            citedText := truncateCited ct }, ?_, rfl⟩
  rw [hes]
  exact citationEntries_get umap cs 0 j c ct hj hct

def c6LongText : String := String.mk (List.replicate 150 'x')

def c6TextBlock : Block :=
  { type := "text", text := some "T",
    citations := some [{ cited_text := some c6LongText, url := none }] }

/-- Witness for C6: a 150-character cited text renders as its first 100
characters plus the ellipsis marker. -/
theorem spec_c6_excerpt_truncation_witness :
    ∃ e, ([{ number := 1,
             citedText := String.mk (List.replicate 100 'x') ++ "..." }] :
        List CitationEntry).get?
        (countCitedBefore [{ cited_text := some c6LongText, url := none }] 0) =
      some e ∧
      e.citedText =
        (if c6LongText.length > 100 then c6LongText.take 100 ++ "..."
         else c6LongText) :=
  spec_c6_excerpt_truncation c6TextBlock none "T"
    [{ number := 1, citedText := String.mk (List.replicate 100 'x') ++ "..." }]
    [{ cited_text := some c6LongText, url := none }] 0
    { cited_text := some c6LongText, url := none } c6LongText
    rfl rfl rfl rfl

/-- C10: a citation without cited text produces no entry yet keeps its
enumeration slot, so a later fallback-labeled citation gets its absolute
1-based list position as its number — not its position among the rendered
excerpts — and the entry list has exactly one entry per cited-text-bearing
citation. -/
theorem spec_c10_fallback_absolute (b : Block) (msg : Option Message)
    (t : String) (es : List CitationEntry) (cs : List Citation) (j : Nat)
    (c : Citation) (ct : String) (umap : List (String × Nat))
    (hr : renderTextBlock b msg = .ok (.withCitations t es))
    (hc : b.citations = some cs)
    (hm : buildUrlMap msg = .ok umap)
    (hj : cs.get? j = some c)
    (hct : c.cited_text = some ct)
    (hfb : ∀ u, c.url = some u → umap.lookup u = none) :
    es.get? (countCitedBefore cs j) =
        some { number := j + 1, citedText := truncateCited ct } ∧
      es.length = cs.countP (fun x => x.cited_text.isSome) := by
  obtain ⟨cs', umap', _, hc', hm', hes⟩ := renderTextBlock_withCitations_inv hr
  rw [hc] at hc'; rw [hm] at hm'
  simp only [Option.some.injEq] at hc'
  simp only [Except.ok.injEq] at hm'
  subst hc'; subst hm'
  have hget := citationEntries_get umap cs 0 j c ct hj hct
  have hnum : citationNumber umap (0 + j) c = j + 1 := by
    cases hu : c.url with
    | none => simp [citationNumber, hu]
    | some u => simp [citationNumber, hu, hfb u hu]
  rw [hnum] at hget
  exact ⟨by rw [hes]; exact hget,
    by rw [hes]; exact citationEntries_length umap cs 0⟩

def c10TextBlock : Block :=
  { type := "text", text := some "T",
    citations := some [{ cited_text := none, url := some "u" },
                       { cited_text := some "q", url := none }] }

/-- Witness for C10: the first citation (no cited text) is skipped, and the
second one's fallback label is 2 — its absolute position — while sitting at
entry position 0. -/
theorem spec_c10_fallback_absolute_witness :
    ([{ number := 2, citedText := "q" }] : List CitationEntry).get?
        (countCitedBefore [{ cited_text := none, url := some "u" },
                           { cited_text := some "q", url := none }] 1) =
      some { number := 2, citedText := truncateCited "q" } ∧
    ([{ number := 2, citedText := "q" }] : List CitationEntry).length =
      ([{ cited_text := none, url := some "u" },
        { cited_text := some "q", url := none }] : List Citation).countP
        (fun x => x.cited_text.isSome) :=
  spec_c10_fallback_absolute c10TextBlock none "T"
    [{ number := 2, citedText := "q" }]
    [{ cited_text := none, url := some "u" },
     { cited_text := some "q", url := none }] 1
    { cited_text := some "q", url := none } "q" []
    rfl rfl rfl rfl rfl (fun u h => by simp at h)

def c4Spaces : String := String.mk (List.replicate 1001 ' ')

def c4Letters : String := String.mk (List.replicate 1001 'a')

def c4SpacesBlock : Block := { type := "text", text := some c4Spaces }

def c4CitedBlock : Block :=
  { type := "text", text := some c4Letters,
    citations := some [{ cited_text := some "q" }] }

/-- Counterexample to C4 as stated: a 1001-character whitespace-only text
renders the empty placeholder, and a 1001-character text carrying a citation
renders the citations layout — neither takes the long-form path. -/
theorem spec_c4_counterexample :
    c4Spaces.length = 1001 ∧
    renderTextBlock c4SpacesBlock none = .ok .empty ∧
    renderTextBlock c4SpacesBlock none ≠ .ok (.longForm 1001 c4Spaces) ∧
    c4Letters.length = 1001 ∧
    renderTextBlock c4CitedBlock none =
      .ok (.withCitations c4Letters [{ number := 1, citedText := "q" }]) ∧
    renderTextBlock c4CitedBlock none ≠ .ok (.longForm 1001 c4Letters) := by
  have h1 : renderTextBlock c4SpacesBlock none = .ok .empty := rfl
  have h2 : renderTextBlock c4CitedBlock none =
      .ok (.withCitations c4Letters [{ number := 1, citedText := "q" }]) := rfl
  refine ⟨rfl, h1, ?_, rfl, h2, ?_⟩
  · rw [h1]; simp
  · rw [h2]; simp

/-- C4 (amended): for a text block with no non-empty citation list and text
that is not empty or whitespace-only, a text of exactly 1001 characters takes
the collapsed long-form path labeled with the character count, and a text of
exactly 1000 characters renders as plain preformatted text. -/
theorem spec_c4_amended (b : Block) (msg : Option Message) (text : String)
    (ht : b.text = some text)
    (hc : b.citations = none ∨ b.citations = some [])
    (hw : stripIsEmpty text = false) :
    (text.length = 1001 →
      renderTextBlock b msg = .ok (.longForm 1001 text)) ∧
    (text.length = 1000 → renderTextBlock b msg = .ok (.plain text)) := by
  have hrender : renderTextBlock b msg =
      (if text.length > 1000 then .ok (.longForm text.length text)
       else .ok (.plain text)) := by
    unfold renderTextBlock
    rw [ht]
    dsimp only
    have hcit : (match b.citations with
        | some cs => !cs.isEmpty
        | none => false) = false := by
      cases hc with
      | inl h => rw [h]
      | inr h => rw [h]; rfl
    rw [hcit]
    have hne : text.data.isEmpty = false := by
      cases hd : text.data with
      | nil =>
        exfalso
        have hst : stripIsEmpty text = true := by
          unfold stripIsEmpty; rw [hd]; rfl
        rw [hst] at hw
        exact Bool.noConfusion hw
      | cons a l => rfl
    have hti : textIsEmpty text = false := by
      unfold textIsEmpty; rw [hne, hw]; rfl
    rw [hti]
    simp only [Bool.false_eq_true, if_false]
  constructor
  · intro hlen; rw [hrender, hlen]; simp
  · intro hlen; rw [hrender, hlen]; simp

def c4GoodBlock : Block := { type := "text", text := some c4Letters }

/-- Witness for the amended C4: a citation-free block of 1001 letters takes
the long-form path labeled 1001. -/
theorem spec_c4_amended_witness :
    renderTextBlock c4GoodBlock none = .ok (.longForm 1001 c4Letters) :=
  (spec_c4_amended c4GoodBlock none c4Letters rfl (Or.inl rfl) rfl).1 rfl

def c5CitedBlock : Block :=
  { type := "text", text := some "",
    citations := some [{ cited_text := some "q" }] }

/-- Counterexample to C5 as stated: an empty-text block that carries a
citation renders the citations layout, not the empty placeholder. -/
theorem spec_c5_counterexample :
    renderTextBlock c5CitedBlock none =
      .ok (.withCitations "" [{ number := 1, citedText := "q" }]) ∧
    renderTextBlock c5CitedBlock none ≠ .ok .empty := by
  have he : renderTextBlock c5CitedBlock none =
      .ok (.withCitations "" [{ number := 1, citedText := "q" }]) := rfl
  exact ⟨he, by rw [he]; simp⟩

lemma renderTextBlock_ok_of_whitespace {b : Block} {msg : Option Message}
    {text : String} {r : TextRendering}
    (ht : b.text = some text) (hti : textIsEmpty text = true)
    (hr : renderTextBlock b msg = .ok r) :
    (∃ t es, r = .withCitations t es) ∨ r = .empty := by
  unfold renderTextBlock at hr
  rw [ht] at hr
  dsimp only at hr
  split at hr
  · cases hmap : buildUrlMap msg with
    | error e => rw [hmap] at hr; exact absurd hr (by simp)
    | ok umap =>
      rw [hmap] at hr
      simp only [Except.ok.injEq] at hr
      exact Or.inl ⟨_, _, hr.symm⟩
  · simp only [hti, if_true, Except.ok.injEq] at hr
    exact Or.inr hr.symm

/-- C5 (amended): an empty or whitespace-only text block renders the empty
placeholder when it has no non-empty citation list, and in every case it
never takes the plain-text or long-form path. -/
theorem spec_c5_amended (b : Block) (msg : Option Message) (text : String)
    (ht : b.text = some text)
    (hw : stripIsEmpty text = true) :
    ((b.citations = none ∨ b.citations = some []) →
      renderTextBlock b msg = .ok .empty) ∧
    (∀ r, renderTextBlock b msg = .ok r →
      (∀ s, r ≠ .plain s) ∧ (∀ n s, r ≠ .longForm n s)) := by
  have hti : textIsEmpty text = true := by
    unfold textIsEmpty; rw [hw]; simp
  constructor
  · intro hc
    unfold renderTextBlock
    rw [ht]
    dsimp only
    have hcit : (match b.citations with
        | some cs => !cs.isEmpty
        | none => false) = false := by
      cases hc with
      | inl h => rw [h]
      | inr h => rw [h]; rfl
    rw [hcit, hti]
    simp
  · intro r hr
    rcases renderTextBlock_ok_of_whitespace ht hti hr with ⟨t', es', rfl⟩ | rfl
    · exact ⟨fun s h => by simp at h, fun n s h => by simp at h⟩
    · exact ⟨fun s h => by simp at h, fun n s h => by simp at h⟩

def c5WsBlock : Block := { type := "text", text := some " " }

/-- Witness for the amended C5: a citation-free single-space block renders
the empty placeholder. -/
theorem spec_c5_amended_witness :
    renderTextBlock c5WsBlock none = .ok .empty :=
  (spec_c5_amended c5WsBlock none " " rfl rfl).1 (Or.inl rfl)

/-- C8: a failing structured-text serialization is recovered locally —
`_safe_json` returns the placeholder naming the failure, and a block rendered
through the generic fallback never aborts the render. -/
theorem spec_c8_serialization_recovery (o : PyObj) (e : String) (b : Block)
    (i : Nat) (msg : Option Message) (d : Nat)
    (ho : o.dump = .error e)
    (hb : b.type ∉ ["text", "tool_use", "tool_result", "server_tool_use",
      "web_search_tool_result", "image", "thinking", "document"]) :
    safeJson o = "<Unable to serialize: " ++ e ++ ">" ∧
    ∃ f, renderBlock b i msg d = .ok f ∧
      f.body = .generic (safeJson b.serial) := by
  constructor
  · cases o with
    | pydantic d0 =>
      cases d0 with
      | ok s => exact absurd ho (by simp [PyObj.dump])
      | error e0 =>
        have he : e0 = e := by simpa [PyObj.dump] using ho
        subst he; rfl
    | dictObj d0 =>
      cases d0 with
      | ok s => exact absurd ho (by simp [PyObj.dump])
      | error e0 =>
        have he : e0 = e := by simpa [PyObj.dump] using ho
        subst he; rfl
    | plainObj d0 =>
      cases d0 with
      | ok s => exact absurd ho (by simp [PyObj.dump])
      | error e0 =>
        have he : e0 = e := by simpa [PyObj.dump] using ho
        subst he; rfl
  · simp only [List.mem_cons, List.not_mem_nil, or_false] at hb
    push_neg at hb
    obtain ⟨n1, n2, n3, n4, n5, n6, n7, n8⟩ := hb
    have hbody : renderBlockBody b msg d =
        .ok (.generic (safeJson b.serial)) := by
      unfold renderBlockBody
      rw [if_neg n1, if_neg n2, if_neg n3, if_neg n4, if_neg n5, if_neg n6,
        if_neg n7, if_neg n8]
    refine ⟨{ icon := getBlockIcon b.type, color := getBlockColor b.type,
              tooltip := getBlockTooltipText b.type,
              label := labelOfType b.type,
              indexBadge := "Block " ++ toString i,
              body := .generic (safeJson b.serial) }, ?_, rfl⟩
    unfold renderBlock
    rw [hbody]

def c8Obj : PyObj := .plainObj (.error "Circular reference detected")

def c8Block : Block := { type := "mystery" }

/-- Witness for C8: a plain object whose encoding fails yields the
placeholder string. -/
theorem spec_c8_serialization_recovery_witness :
    safeJson c8Obj =
      "<Unable to serialize: " ++ "Circular reference detected" ++ ">" :=
  (spec_c8_serialization_recovery c8Obj "Circular reference detected"
    c8Block 0 none 0 rfl (by decide)).1

lemma renderSearchEntries_ok_length :
    ∀ (items : List SubObj) (i : Nat) (es : List SearchEntryFragment),
      renderSearchEntries items i = .ok es →
      es.length =
        items.countP (fun it => decide (it.type = some "web_search_result")) := by
  intro items
  induction items with
  | nil =>
    intro i es h
    unfold renderSearchEntries at h
    simp only [Except.ok.injEq] at h
    subst h
    rfl
  | cons it rest ih =>
    intro i es h
    unfold renderSearchEntries at h
    by_cases htype : it.type = some "web_search_result"
    · rw [if_pos htype] at h
      cases h1 : renderIndividualSearchResult it i with
      | error e => rw [h1] at h; exact absurd h (by simp)
      | ok e0 =>
        rw [h1] at h
        cases h2 : renderSearchEntries rest (i + 1) with
        | error e => rw [h2] at h; exact absurd h (by simp)
        | ok es' =>
          rw [h2] at h
          simp only [Except.ok.injEq] at h
          subst h
          simp [List.countP_cons, htype, ih (i + 1) es' h2]
    · rw [if_neg htype] at h
      simp [List.countP_cons, htype, ih (i + 1) es h]

/-- C9: the displayed result count of a web-search block is the length of its
whole content list, so entries whose tag is not `web_search_result` are
counted even though only tagged entries render, and the count never falls
below the number of rendered entries. -/
theorem spec_c9_search_count (b : Block) (depth : Nat) (items : List SubObj)
    (count : Nat) (es : List SearchEntryFragment)
    (hc : b.content = some (.list items))
    (hr : renderWebSearchResultBlock b depth = .ok (.webSearch count es)) :
    count = items.length ∧
    es.length =
      items.countP (fun it => decide (it.type = some "web_search_result")) ∧
    es.length ≤ count := by
  unfold renderWebSearchResultBlock at hr
  rw [hc] at hr
  dsimp only at hr
  cases h1 : renderSearchEntries items 0 with
  | error e => rw [h1] at hr; exact absurd hr (by simp)
  | ok es' =>
    rw [h1] at hr
    simp only [Except.ok.injEq, BlockBody.webSearch.injEq] at hr
    obtain ⟨hcount, hes⟩ := hr
    subst hes
    have hlen := renderSearchEntries_ok_length items 0 es' h1
    refine ⟨hcount.symm, hlen, ?_⟩
    rw [← hcount, hlen]
    exact List.countP_le_length _

def c9Item : SubObj := { type := some "other" }

def c9Block : Block :=
  { type := "web_search_tool_result", content := some (.list [c9Item]) }

/-- Witness for C9: a single non-`web_search_result` entry gives a displayed
count of 1 against zero rendered entries. -/
theorem spec_c9_search_count_witness :
    (1 : Nat) = [c9Item].length ∧
    ([] : List SearchEntryFragment).length =
      [c9Item].countP (fun it => decide (it.type = some "web_search_result")) ∧
    ([] : List SearchEntryFragment).length ≤ 1 :=
  spec_c9_search_count c9Block 0 [c9Item] 1 [] rfl rfl
